import Mathlib

/-!
Shallow embedding of the session-store and prompt-assembly subsystem of the
Flask chat application (`app_chat.py`) and the health endpoints of the
sibling variants (`app_cdsw_phi2_only.py`, `app_py310.py`).

Conversation turns are strings; the shelve database is modelled as an
association list from keys to stored records; the model gateway is an
opaque function returning either a generated text together with the
captured timing output, or an exception message.  Python string
primitives (`str.replace`, `str.strip`, `str.split`, slicing) are
embedded as executable functions on `List Char`.
-/

namespace UatChat

/-- Python `str.startswith` on character lists: `beginsWith pat l` is true
when `pat` is an initial segment of `l`. -/
def beginsWith : List Char → List Char → Bool
  | [], _ => true
  | _ :: _, [] => false
  | p :: ps, c :: cs => p == c && beginsWith ps cs

/-- Fuel-indexed worker for `pyReplace`: scans the text left to right and
replaces each (non-overlapping) occurrence of `pat` by `rep`, exactly as
Python `str.replace` does.  The fuel is the length of the text, which
suffices because every step consumes at least one character. -/
def replaceAllAux (pat rep : List Char) : Nat → List Char → List Char
  | 0, l => l
  | Nat.succ _, [] => []
  | Nat.succ fuel, c :: cs =>
    if !pat.isEmpty && beginsWith pat (c :: cs) then
      rep ++ replaceAllAux pat rep fuel ((c :: cs).drop pat.length)
    else
      c :: replaceAllAux pat rep fuel cs

/-- Python `s.replace(pat, rep)` for a non-empty pattern (every use in the
source passes a non-empty literal pattern). -/
def pyReplace (s pat rep : String) : String :=
  String.mk (replaceAllAux pat.data rep.data s.data.length s.data)

/-- Python `s.strip()` restricted to ASCII whitespace. -/
def pyStrip (s : String) : String :=
  String.mk (((s.data.dropWhile Char.isWhitespace).reverse.dropWhile
    Char.isWhitespace).reverse)

/-- Python `s.split()` (no separator): split on runs of whitespace,
dropping empty fragments.  `acc` is the current word, reversed. -/
def splitWsAux : List Char → List Char → List (List Char)
  | [], acc => if acc.isEmpty then [] else [acc.reverse]
  | c :: cs, acc =>
    if c.isWhitespace then
      if acc.isEmpty then splitWsAux cs [] else acc.reverse :: splitWsAux cs []
    else splitWsAux cs (c :: acc)

/-- The character class `[A-Za-z0-9_.-]` kept by `secure_filename`. -/
def asciiSafeChar (c : Char) : Bool :=
  c.isAlpha || c.isDigit || c == '_' || c == '.' || c == '-'

/-- Characters stripped from both ends by `secure_filename`. -/
def dotOrUnderscore (c : Char) : Bool :=
  c == '.' || c == '_'

/-- `werkzeug.utils.secure_filename`, embedded for ASCII input on a POSIX
platform (the NFKD normalisation is the identity on ASCII and the
Windows device-name special case does not apply): replace the path
separator by a space, join the whitespace-separated words with `_`, drop
every character outside `[A-Za-z0-9_.-]`, and strip `.` and `_` from both
ends.  Note that no case folding happens anywhere. -/
def secure_filename (s : String) : String :=
  let replaced := pyReplace s "/" " "
  let words := splitWsAux replaced.data []
  let joined := List.intercalate ['_'] words
  let filtered := joined.filter asciiSafeChar
  let stripped :=
    ((filtered.dropWhile dotOrUnderscore).reverse.dropWhile dotOrUnderscore).reverse
  String.mk stripped

/-- One stored record of the shelve database, as written by
`save_session`: the turn list, the captured timings text, and the
ISO-format timestamp of the save. -/
structure SessionData where
  history : List String
  timings : String
  timestamp : String
deriving DecidableEq, Repr

/-- The shelve file `sessions.db`, modelled as an association list with
at most one binding per key (maintained by the operations below). -/
abbrev Store : Type := List (String × SessionData)

/-- Dictionary lookup `db.get(key)` on the store. -/
def storeGet : Store → String → Option SessionData
  | [], _ => none
  | (k2, d) :: rest, k => if k2 = k then some d else storeGet rest k

/-- Dictionary deletion `del db[key]` on the store (removes the binding
of `k`; identity when `k` is absent). -/
def storeErase : Store → String → Store
  | [], _ => []
  | (k2, d) :: rest, k =>
    if k2 = k then storeErase rest k else (k2, d) :: storeErase rest k

/-- `save_session(session_id, history, timings)`: writes the record
`{'history': history, 'timings': timings, 'timestamp': now}` at
`session_id`, overwriting any previous entry.  The clock value
`now_iso` stands for `datetime.now().isoformat()`. -/
def save_session (db : Store) (session_id : String) (history : List String)
    (timings : String) (now_iso : String) : Store :=
  (session_id, ⟨history, timings, now_iso⟩) :: storeErase db session_id

/-- `load_session(session_id)`: `db.get(session_id, {})` followed by
`.get('history', [])` and `.get('timings', '')` — an absent key yields
the empty history and empty timings. -/
def load_session (db : Store) (session_id : String) : List String × String :=
  match storeGet db session_id with
  | some d => (d.history, d.timings)
  | none => ([], "")

/-- `delete_session(session_id)`: `if session_id in db: del db[session_id]`. -/
def delete_session (db : Store) (session_id : String) : Store :=
  storeErase db session_id

/-- The purge test of `cleanup_old_sessions` for one record: a key is
marked for deletion when its timestamp is non-empty and either parses to
a time strictly below the cutoff or fails to parse.  An empty (missing)
timestamp string is *not* marked.  `parse` stands for the external
`datetime.fromisoformat(...).timestamp()`, with time as an integer. -/
def purgeDecision (parse : String → Option Int) (cutoff : Int)
    (d : SessionData) : Bool :=
  if d.timestamp ≠ "" then
    match parse d.timestamp with
    | some ts => decide (ts < cutoff)
    | none => true
  else false

/-- The delete loop of `cleanup_old_sessions`: keep exactly the records
not marked for deletion. -/
def purgeRun (parse : String → Option Int) (cutoff : Int) : Store → Store
  | [] => []
  | (k, d) :: rest =>
    if purgeDecision parse cutoff d then purgeRun parse cutoff rest
    else (k, d) :: purgeRun parse cutoff rest

/-- `cleanup_old_sessions(max_age_days)`: the cutoff is
`datetime.now().timestamp() - max_age_days * 24 * 60 * 60`; `now` stands
for the current clock reading. -/
def cleanup_old_sessions (parse : String → Option Int) (now : Int)
    (max_age_days : Int) (db : Store) : Store :=
  purgeRun parse (now - max_age_days * (24 * 60 * 60)) db

/-- The default prompt template (`PROMPT_TEMPLATE` global). -/
def PROMPT_TEMPLATE : String := "Instruct: {prompt}\nOutput:"

/-- The default system prompt (`SYSTEM_PROMPT` global), transcribed from
the triple-quoted literal in the source. -/
def SYSTEM_PROMPT : String :=
  "You are a helpful AI assistant specialized in UAT (User Acceptance Testing) and software quality assurance. \nYou excel at generating comprehensive test cases from user stories, identifying test variables, and providing detailed testing guidance.\n\nWhen generating test cases:\n1. Consider both happy path and edge cases\n2. Include functional, regression, and integration testing scenarios\n3. Identify specific UI elements, data inputs, and expected outcomes\n4. Structure test cases with clear steps and expected results\n\nWhen helping with general questions:\n1. Provide clear, concise, and accurate information\n2. If you\x27re unsure about something, admit it rather than guess\n3. Focus on practical solutions and best practices\n"

/-- `template.format(prompt=message)` for a template whose only format
field is the placeholder between a brace pair holding the name `prompt`
(the shape the `PromptTemplate` data model prescribes): every occurrence
of the placeholder is replaced by the message. -/
def pyFormatPrompt (template message : String) : String :=
  pyReplace template "{prompt}" message

/-- The per-request transient context kept in the Flask cookie session:
`session_id` (a key, possibly `None`), `chat_history` and `timings`. -/
structure ChatSession where
  session_id : Option String
  chat_history : List String
  timings : String
deriving DecidableEq, Repr

/-- The prompt-construction block of `generate_response`: start from an
empty part list, append the system prompt when it is non-empty, extend
with the conversation history, append the template with the prompt
substituted, and join everything with a single newline. -/
def assemble_prompt (sys_prompt : String) (history : List String)
    (template : String) (prompt : String) : String :=
  let full_prompt_parts : List String := []
  let full_prompt_parts :=
    if sys_prompt ≠ "" then full_prompt_parts ++ [sys_prompt] else full_prompt_parts
  let full_prompt_parts := full_prompt_parts ++ history
  let formatted_prompt := pyFormatPrompt template prompt
  let full_prompt_parts := full_prompt_parts ++ [formatted_prompt]
  String.intercalate "\n" full_prompt_parts

/-- The model gateway (`llm(...)` call): given the full prompt and
`max_tokens`, returns either the generated text together with the
timings captured from stdout, or the message of the raised exception. -/
def Gateway : Type := String → Nat → Except String (String × String)

/-- `generate_response(prompt, max_tokens)`: assembles the full prompt
from the current history, calls the gateway, and on success appends the
stripped answer to the history and stores the timings; on an exception
appends the error message `"Error generating response: ..."` to the
history instead.  Returns the text returned to the caller together with
the updated transient context. -/
def generate_response (sys_prompt template : String) (llm : Gateway)
    (prompt : String) (max_tokens : Nat) (cs : ChatSession) :
    String × ChatSession :=
  let history := cs.chat_history
  let full_prompt := assemble_prompt sys_prompt history template prompt
  match llm full_prompt max_tokens with
  | Except.error e =>
    let error_message := "Error generating response: " ++ e
    (error_message, { cs with chat_history := history ++ [error_message] })
  | Except.ok (text, timings) =>
    let answer := pyStrip text
    (answer, { cs with chat_history := history ++ [answer], timings := timings })

/-- An HTTP handler outcome: a plain body with a status code, or a
redirect to a named route. -/
inductive HttpResp where
  | plain : String → Nat → HttpResp
  | redirect : String → HttpResp
deriving DecidableEq, Repr

/-- `POST /ask` (`ask_question`): 503 when no model is loaded, 400 on an
empty prompt, otherwise one `generate_response` turn followed by a
redirect to the main page. -/
def ask_question (model_loaded : Bool) (sys_prompt template : String)
    (llm : Gateway) (prompt : String) (max_tokens : Nat) (cs : ChatSession) :
    HttpResp × ChatSession :=
  if !model_loaded then (HttpResp.plain "Model is not loaded." 503, cs)
  else if prompt = "" then (HttpResp.plain "Please provide a prompt." 400, cs)
  else
    let r := generate_response sys_prompt template llm prompt max_tokens cs
    (HttpResp.redirect "main_page", r.2)

/-- The derived session key used by `new_chat` and
`save_current_session`: strip the template markers from the first turn,
strip whitespace, slug the first 30 characters, and prepend the
minute-precision timestamp.  `now_key` stands for
`datetime.now().strftime(a year-month-day-hour-minute pattern)`. -/
def derive_session_id (now_key : String) (history : List String) : String :=
  let first_prompt :=
    pyStrip (pyReplace (pyReplace (history.headD "") "Instruct:" "") "\nOutput:" "")
  let safe_name := secure_filename (String.mk (first_prompt.data.take 30))
  now_key ++ "_" ++ safe_name

/-- The key a save actually uses: the already-assigned `session_id`
unless it is falsy (`None` or the empty string), in which case a fresh
key is derived from the first turn. -/
def effective_session_id (now_key : String) (cs : ChatSession) : String :=
  match cs.session_id with
  | some s => if s = "" then derive_session_id now_key cs.chat_history else s
  | none => derive_session_id now_key cs.chat_history

/-- `GET /new_chat` (`new_chat`): when the transient history is
non-empty, save it (with its timings) under the active or freshly
derived key; then clear the transient context. -/
def new_chat (now_key now_iso : String) (cs : ChatSession) (db : Store) :
    ChatSession × Store :=
  let db2 :=
    if cs.chat_history = [] then db
    else save_session db (effective_session_id now_key cs) cs.chat_history
      cs.timings now_iso
  (⟨none, [], ""⟩, db2)

/-- `POST /save_session` (`save_current_session`): when the transient
history is non-empty, save it under the active or freshly derived key
and record that key in the transient context. -/
def save_current_session (now_key now_iso : String) (cs : ChatSession)
    (db : Store) : ChatSession × Store :=
  if cs.chat_history = [] then (cs, db)
  else
    let sid := effective_session_id now_key cs
    (⟨some sid, cs.chat_history, cs.timings⟩,
      save_session db sid cs.chat_history cs.timings now_iso)

/-- `POST /update_settings` (`update_settings`): the form field
`prompt_template` is `None` when missing; the template is replaced only
when the field is truthy (present and non-empty). -/
def update_settings (new_template : Option String)
    (prompt_template : String) : String :=
  match new_template with
  | some t => if t ≠ "" then t else prompt_template
  | none => prompt_template

/-- `POST /update_system_prompt` (`update_system_prompt`): the system
prompt is replaced whenever the form field is present, the empty string
included (`if new_system_prompt is not None`). -/
def update_system_prompt (new_system_prompt : Option String)
    (system_prompt : String) : String :=
  match new_system_prompt with
  | some s => s
  | none => system_prompt

/-- The JSON body returned by `GET /health` of `app_cdsw_phi2_only.py`:
fields `status`, `model_loaded` and `model_type`. -/
structure CdswHealth where
  status : String
  model_loaded : Bool
  model_type : String
deriving DecidableEq, Repr

/-- `health` of `app_cdsw_phi2_only.py`: the status field is the literal
`"healthy"` regardless of `phi2_model.model_loaded`; the boolean load
state is reported in `model_loaded`. -/
def health (phi2_model_loaded : Bool) : CdswHealth :=
  { status := "healthy", model_loaded := phi2_model_loaded,
    model_type := "phi-2-gguf" }

/-- The JSON body returned by `GET /health` of `app_py310.py`: fields
`status` and `model` (a descriptive string; no boolean field). -/
structure Py310Health where
  status : String
  model : String
deriving DecidableEq, Repr

/-- `health_check` of `app_py310.py`: status `"healthy"` with code 200
when the model is loaded, `"unhealthy"` with code 500 otherwise. -/
def health_check (llm_loaded : Bool) : Py310Health × Nat :=
  if llm_loaded then ({ status := "healthy", model := "Phi-2 GGUF Loaded" }, 200)
  else ({ status := "unhealthy", model := "Model Not Loaded" }, 500)

/-- Looking a key up after erasing a different key is unchanged. -/
theorem storeGet_storeErase_ne (db : Store) (sid k : String) (hne : k ≠ sid) :
    storeGet (storeErase db sid) k = storeGet db k := by
  induction db with
  | nil => rfl
  | cons hd tl ih =>
    obtain ⟨k2, d⟩ := hd
    by_cases h2 : k2 = sid
    · rw [storeErase, if_pos h2, ih, storeGet,
        if_neg (fun hkk => hne (hkk.symm.trans h2))]
    · rw [storeErase, if_neg h2, storeGet, storeGet]
      by_cases h3 : k2 = k
      · rw [if_pos h3, if_pos h3]
      · rw [if_neg h3, if_neg h3, ih]

/-- Erasing a key removes its binding. -/
theorem storeGet_storeErase_self (db : Store) (k : String) :
    storeGet (storeErase db k) k = none := by
  induction db with
  | nil => rfl
  | cons hd tl ih =>
    obtain ⟨k2, d⟩ := hd
    by_cases h2 : k2 = k
    · rw [storeErase, if_pos h2, ih]
    · rw [storeErase, if_neg h2, storeGet, if_neg h2, ih]

/-- Erasing an absent key is the identity. -/
theorem storeErase_of_storeGet_none (db : Store) (k : String)
    (habs : storeGet db k = none) : storeErase db k = db := by
  induction db with
  | nil => rfl
  | cons hd tl ih =>
    obtain ⟨k2, d⟩ := hd
    rw [storeGet] at habs
    by_cases h2 : k2 = k
    · rw [if_pos h2] at habs
      exact absurd habs (by simp)
    · rw [if_neg h2] at habs
      rw [storeErase, if_neg h2, ih habs]

/-- Lookup after a save: the saved key maps to the new record and every
other key is unchanged. -/
theorem storeGet_save (db : Store) (sid k : String) (h : List String)
    (t ts : String) :
    storeGet (save_session db sid h t ts) k =
      if k = sid then some ⟨h, t, ts⟩ else storeGet db k := by
  rw [save_session, storeGet]
  by_cases hk : k = sid
  · rw [if_pos hk, if_pos hk.symm]
  · rw [if_neg hk, if_neg (fun h2 => hk h2.symm), storeGet_storeErase_ne db sid k hk]

/-- Membership in the purge output: exactly the records of the input not
marked for deletion survive. -/
theorem mem_purgeRun (parse : String → Option Int) (cutoff : Int) (db : Store)
    (e : String × SessionData) :
    e ∈ purgeRun parse cutoff db ↔
      e ∈ db ∧ purgeDecision parse cutoff e.2 = false := by
  induction db with
  | nil => simp [purgeRun]
  | cons hd tl ih =>
    obtain ⟨k, d⟩ := hd
    rw [purgeRun]
    by_cases hdel : purgeDecision parse cutoff d = true
    · rw [if_pos hdel, ih]
      simp only [List.mem_cons]
      constructor
      · rintro ⟨hm, hf⟩
        exact ⟨Or.inr hm, hf⟩
      · rintro ⟨he | hm, hf⟩
        · rw [he] at hf
          rw [hf] at hdel
          exact absurd hdel (by simp)
        · exact ⟨hm, hf⟩
    · rw [if_neg hdel]
      simp only [List.mem_cons, ih]
      constructor
      · rintro (he | ⟨hm, hf⟩)
        · refine ⟨Or.inl he, ?_⟩
          rw [he]
          exact Bool.eq_false_iff.mpr hdel
        · exact ⟨Or.inr hm, hf⟩
      · rintro ⟨he | hm, hf⟩
        · exact Or.inl he
        · exact Or.inr ⟨hm, hf⟩

/-- The purge test spelled out: a record survives exactly when its
timestamp is the empty string, or parses to a time at or after the
cutoff. -/
theorem purgeDecision_eq_false_iff (parse : String → Option Int) (cutoff : Int)
    (d : SessionData) :
    purgeDecision parse cutoff d = false ↔
      d.timestamp = "" ∨ ∃ ts, parse d.timestamp = some ts ∧ cutoff ≤ ts := by
  unfold purgeDecision
  by_cases ht : d.timestamp = ""
  · simp [ht]
  · rw [if_pos ht]
    cases hp : parse d.timestamp with
    | none => simp [ht, hp]
    | some ts => simp [ht, hp, not_lt]

/-- Stripping characters from both ends keeps every property that every
character of the input already has. -/
theorem all_of_strip (p q : Char → Bool) (l : List Char) (hl : l.all p = true) :
    ((((l.dropWhile q).reverse.dropWhile q).reverse).all p) = true := by
  rw [List.all_eq_true] at hl ⊢
  intro c hc
  rw [List.mem_reverse] at hc
  have hc2 : c ∈ (l.dropWhile q).reverse :=
    (List.dropWhile_sublist q).subset hc
  rw [List.mem_reverse] at hc2
  exact hl c ((List.dropWhile_sublist q).subset hc2)

/-- Every character of a `secure_filename` result lies in the
filesystem-safe class `[A-Za-z0-9_.-]`. -/
theorem secure_filename_all_safe (s : String) :
    (secure_filename s).data.all asciiSafeChar = true := by
  show ((((((List.intercalate ['_']
      (splitWsAux (pyReplace s "/" " ").data [])).filter
        asciiSafeChar).dropWhile dotOrUnderscore).reverse.dropWhile
          dotOrUnderscore).reverse).all asciiSafeChar) = true
  apply all_of_strip
  rw [List.all_eq_true]
  intro c hc
  exact (List.mem_filter.mp hc).2

/-- C1: evaluation of the code at the failing input.  On a fresh session
(`h = []`), `POST /ask` with the non-empty prompt `"test"` and a gateway
that succeeds with the text `"ok"` leaves a stored chat history of
exactly one turn — the answer alone — and not the two turns (formatted
instruction, answer) the claim requires. -/
theorem c1_ask_stores_one_turn_not_two :
    ((ask_question true SYSTEM_PROMPT PROMPT_TEMPLATE
        (fun _ _ => Except.ok ("ok", "")) "test" 1024
        ⟨none, [], ""⟩).2.chat_history = ["ok"]) ∧
    (["ok"] : List String).length = 1 ∧
    (["ok"] : List String) ≠ [pyFormatPrompt PROMPT_TEMPLATE "test", "ok"] := by
  refine ⟨rfl, rfl, by decide⟩

/-- C2: the assembled prompt is exactly the newline-join of the system
prompt (only when non-empty), every history turn verbatim in order, and
the template with the message substituted; with the default template and
the message `"Hello"` the substituted tail is exactly
`"Instruct: Hello\nOutput:"`. -/
theorem c2_assemble_matches_spec (s t m : String) (h : List String)
    (hm : m ≠ "") :
    assemble_prompt s h t m =
      String.intercalate "\n"
        ((if s = "" then [] else [s]) ++ h ++ [pyFormatPrompt t m]) ∧
    pyFormatPrompt "Instruct: {prompt}\nOutput:" "Hello" =
      "Instruct: Hello\nOutput:" := by
  constructor
  · by_cases hs : s = ""
    · simp [assemble_prompt, hs]
    · simp [assemble_prompt, hs]
  · decide

/-- Witness for C2 at concrete inputs. -/
theorem c2_witness :
    ("Hello" : String) ≠ "" ∧
    (assemble_prompt "S" ["h1"] "Instruct: {prompt}\nOutput:" "Hello" =
      String.intercalate "\n"
        ((if ("S" : String) = "" then [] else ["S"]) ++ ["h1"] ++
          [pyFormatPrompt "Instruct: {prompt}\nOutput:" "Hello"]) ∧
    pyFormatPrompt "Instruct: {prompt}\nOutput:" "Hello" =
      "Instruct: Hello\nOutput:") :=
  ⟨by decide,
    c2_assemble_matches_spec "S" "Instruct: {prompt}\nOutput:" "Hello" ["h1"]
      (by decide)⟩

/-- C3: loading a key right after saving it returns exactly the saved
history and timings, whatever the store previously held at that key; the
key now maps to the new record only, so the overwritten history is gone. -/
theorem c3_save_load_round_trip (db : Store) (k : String) (h : List String)
    (timings now_iso : String) :
    load_session (save_session db k h timings now_iso) k = (h, timings) ∧
    storeGet (save_session db k h timings now_iso) k =
      some ⟨h, timings, now_iso⟩ := by
  have hg : storeGet (save_session db k h timings now_iso) k =
      some ⟨h, timings, now_iso⟩ := by
    rw [storeGet_save, if_pos rfl]
  exact ⟨by rw [load_session, hg], hg⟩

/-- C4 counterexample: a stored entry whose timestamp is missing (the
empty string) is retained by `cleanup_old_sessions`, while the claim
says every entry with a missing timestamp is removed. -/
theorem c4_counterexample_missing_timestamp_retained :
    cleanup_old_sessions (fun _ => none) 1000000 30
        [("k", ⟨["x"], "", ""⟩)] =
      [("k", ⟨["x"], "", ""⟩)] := by
  decide

/-- C4 (amended): `cleanup_old_sessions` retains exactly the entries
whose timestamp is missing (empty) or parses to a time at or after the
cutoff `now - maxAgeDays*24*60*60`; it removes the entries whose
non-empty timestamp is unparsable or parses strictly before the cutoff. -/
theorem c4_amended_purge_semantics (parse : String → Option Int)
    (now max_age_days : Int) (db : Store) (e : String × SessionData) :
    e ∈ cleanup_old_sessions parse now max_age_days db ↔
      e ∈ db ∧ (e.2.timestamp = "" ∨
        ∃ ts, parse e.2.timestamp = some ts ∧
          now - max_age_days * (24 * 60 * 60) ≤ ts) := by
  rw [cleanup_old_sessions, mem_purgeRun, purgeDecision_eq_false_iff]

/-- C5 counterexample: on the spec's own example first turn the derived
key is `20240101-1200_As_a_user_I_want_to_reset_my` (with a fixed clock
reading `20240101-1200`), whose slug is not lowercase — `secure_filename`
preserves case. -/
theorem c5_counterexample_slug_not_lowercase :
    derive_session_id "20240101-1200"
        ["Instruct: As a user, I want to reset my password\nOutput:"] =
      "20240101-1200_As_a_user_I_want_to_reset_my" ∧
    ("As_a_user_I_want_to_reset_my" : String).data.any Char.isUpper = true := by
  exact ⟨by decide, by decide⟩

/-- C5 (amended): the derived key is the deterministic concatenation of
the minute-precision timestamp, an underscore, and the `secure_filename`
slug of the first 30 characters of the first turn with the template
markers stripped; every slug character lies in the filesystem-safe class
`[A-Za-z0-9_.-]`, but no lowercasing is applied. -/
theorem c5_amended_derived_key_format (now_key : String) (h : List String)
    (hne : h ≠ []) :
    derive_session_id now_key h =
      now_key ++ "_" ++ secure_filename (String.mk
        ((pyStrip (pyReplace (pyReplace (h.headD "") "Instruct:" "")
          "\nOutput:" "")).data.take 30)) ∧
    (secure_filename (String.mk
        ((pyStrip (pyReplace (pyReplace (h.headD "") "Instruct:" "")
          "\nOutput:" "")).data.take 30))).data.all asciiSafeChar = true :=
  ⟨rfl, secure_filename_all_safe _⟩

/-- Witness for C5 at a concrete history. -/
theorem c5_witness :
    (["Instruct: hi\nOutput:"] : List String) ≠ [] ∧
    (derive_session_id "20240101-1200" ["Instruct: hi\nOutput:"] =
      "20240101-1200" ++ "_" ++ secure_filename (String.mk
        ((pyStrip (pyReplace (pyReplace
          ((["Instruct: hi\nOutput:"] : List String).headD "")
          "Instruct:" "") "\nOutput:" "")).data.take 30)) ∧
    (secure_filename (String.mk
        ((pyStrip (pyReplace (pyReplace
          ((["Instruct: hi\nOutput:"] : List String).headD "")
          "Instruct:" "") "\nOutput:" "")).data.take 30))).data.all
        asciiSafeChar = true) :=
  ⟨by decide,
    c5_amended_derived_key_format "20240101-1200" ["Instruct: hi\nOutput:"]
      (by decide)⟩

/-- C6: loading a key that is absent from the store returns the empty
history and empty timings; deleting an absent key leaves the store
unchanged; and deleting any key twice in a row is the same as deleting
it once — none of these operations can fail. -/
theorem c6_absent_key_is_benign (db db2 : Store) (k : String)
    (habs : storeGet db k = none) :
    load_session db k = ([], "") ∧
    delete_session db k = db ∧
    delete_session (delete_session db2 k) k = delete_session db2 k := by
  refine ⟨by rw [load_session, habs], storeErase_of_storeGet_none db k habs, ?_⟩
  exact storeErase_of_storeGet_none _ k (storeGet_storeErase_self db2 k)

/-- Witness for C6 at a concrete store. -/
theorem c6_witness :
    storeGet ([] : Store) "x" = none ∧
    (load_session ([] : Store) "x" = ([], "") ∧
    delete_session ([] : Store) "x" = ([] : Store) ∧
    delete_session (delete_session [("a", ⟨["t"], "", "ts"⟩)] "x") "x" =
      delete_session [("a", ⟨["t"], "", "ts"⟩)] "x") :=
  ⟨rfl, c6_absent_key_is_benign [] [("a", ⟨["t"], "", "ts"⟩)] "x" rfl⟩

/-- C7: when the gateway raises on a request with a non-empty prompt,
the failure message is appended to the conversation history as a visible
turn and the handler still returns a successful redirect instead of
propagating the failure. -/
theorem c7_generation_failure_in_band (sys_prompt template : String)
    (llm : Gateway) (prompt : String) (max_tokens : Nat) (cs : ChatSession)
    (e : String) (hp : prompt ≠ "")
    (herr : llm (assemble_prompt sys_prompt cs.chat_history template prompt)
        max_tokens = Except.error e) :
    (ask_question true sys_prompt template llm prompt max_tokens cs).1 =
      HttpResp.redirect "main_page" ∧
    (ask_question true sys_prompt template llm prompt
        max_tokens cs).2.chat_history =
      cs.chat_history ++ ["Error generating response: " ++ e] := by
  unfold ask_question generate_response
  simp [hp, herr]

/-- A gateway that always raises, used to witness C7. -/
def raisingGateway : Gateway := fun _ _ => Except.error "boom"

/-- Witness for C7 at a concrete request. -/
theorem c7_witness :
    ("hi" : String) ≠ "" ∧
    ((ask_question true "" PROMPT_TEMPLATE raisingGateway "hi" 4
        ⟨none, [], ""⟩).1 = HttpResp.redirect "main_page" ∧
    (ask_question true "" PROMPT_TEMPLATE raisingGateway "hi" 4
        ⟨none, [], ""⟩).2.chat_history =
      ([] : List String) ++ ["Error generating response: " ++ "boom"]) :=
  ⟨by decide,
    c7_generation_failure_in_band "" PROMPT_TEMPLATE raisingGateway "hi" 4
      ⟨none, [], ""⟩ "boom" (by decide) rfl⟩

/-- C8 counterexample: in `app_cdsw_phi2_only.py` the `/health` handler
reports status `"healthy"` even when the model is not loaded, while the
claim requires `"unhealthy"` there. -/
theorem c8_counterexample_always_healthy :
    (health false).status = "healthy" ∧
    ("healthy" : String) ≠ "unhealthy" :=
  ⟨rfl, by decide⟩

/-- C8 (amended): `app_cdsw_phi2_only.py` returns status `"healthy"`
unconditionally together with the boolean `model_loaded` field, while
`app_py310.py` returns `"healthy"`/200 when the model is loaded and
`"unhealthy"`/500 otherwise with a descriptive `model` string and no
boolean field. -/
theorem c8_amended_health_shapes (b : Bool) :
    health b = ⟨"healthy", b, "phi-2-gguf"⟩ ∧
    health_check true = (⟨"healthy", "Phi-2 GGUF Loaded"⟩, 200) ∧
    health_check false = (⟨"unhealthy", "Model Not Loaded"⟩, 500) :=
  ⟨rfl, rfl, rfl⟩

/-- C9: on a non-empty transient history, `/new_chat` stores that
history and its timings under the active session key (or a freshly
derived one when no key is assigned), clears the transient context, and
removes no existing entry from the store. -/
theorem c9_new_chat_saves_before_clearing (now_key now_iso : String)
    (cs : ChatSession) (db : Store) (k : String)
    (hne : cs.chat_history ≠ []) (hk : storeGet db k ≠ none) :
    storeGet (new_chat now_key now_iso cs db).2
        (effective_session_id now_key cs) =
      some ⟨cs.chat_history, cs.timings, now_iso⟩ ∧
    (new_chat now_key now_iso cs db).1 = ⟨none, [], ""⟩ ∧
    storeGet (new_chat now_key now_iso cs db).2 k ≠ none := by
  have hsave : (new_chat now_key now_iso cs db).2 =
      save_session db (effective_session_id now_key cs) cs.chat_history
        cs.timings now_iso := by
    rw [new_chat]
    simp [hne]
  refine ⟨?_, rfl, ?_⟩
  · rw [hsave, storeGet_save, if_pos rfl]
  · rw [hsave, storeGet_save]
    by_cases hkey : k = effective_session_id now_key cs
    · rw [if_pos hkey]
      simp
    · rw [if_neg hkey]
      exact hk

/-- Witness for C9 at a concrete session and store. -/
theorem c9_witness :
    ((⟨none, ["x"], "tm"⟩ : ChatSession).chat_history ≠ []) ∧
    (storeGet [("old", ⟨["y"], "", "ts"⟩)] "old" ≠ none) ∧
    (storeGet (new_chat "20240101-1200" "iso"
        (⟨none, ["x"], "tm"⟩ : ChatSession)
        [("old", ⟨["y"], "", "ts"⟩)]).2
        (effective_session_id "20240101-1200" ⟨none, ["x"], "tm"⟩) =
      some ⟨["x"], "tm", "iso"⟩ ∧
    (new_chat "20240101-1200" "iso" (⟨none, ["x"], "tm"⟩ : ChatSession)
        [("old", ⟨["y"], "", "ts"⟩)]).1 = ⟨none, [], ""⟩ ∧
    storeGet (new_chat "20240101-1200" "iso"
        (⟨none, ["x"], "tm"⟩ : ChatSession)
        [("old", ⟨["y"], "", "ts"⟩)]).2 "old" ≠ none) :=
  ⟨by decide, by decide,
    c9_new_chat_saves_before_clearing "20240101-1200" "iso"
      ⟨none, ["x"], "tm"⟩ [("old", ⟨["y"], "", "ts"⟩)] "old"
      (by decide) (by decide)⟩

/-- C10: a missing or empty `prompt_template` field leaves the template
unchanged and the template can never become empty (when it was not empty
already), whereas a present-but-empty `system_prompt` field does set the
system prompt to the empty string. -/
theorem c10_template_guard_vs_system_prompt (cur curS : String)
    (form : Option String) (hcur : cur ≠ "") :
    update_settings none cur = cur ∧
    update_settings (some "") cur = cur ∧
    update_settings form cur ≠ "" ∧
    update_system_prompt (some "") curS = "" := by
  refine ⟨rfl, by simp [update_settings], ?_, rfl⟩
  cases form with
  | none => exact hcur
  | some t =>
    by_cases ht : t = ""
    · rw [ht]
      simpa [update_settings] using hcur
    · simpa [update_settings, ht] using ht

/-- Witness for C10 at concrete strings. -/
theorem c10_witness :
    ("Instruct: {prompt}\nOutput:" : String) ≠ "" ∧
    (update_settings none "Instruct: {prompt}\nOutput:" =
      "Instruct: {prompt}\nOutput:" ∧
    update_settings (some "") "Instruct: {prompt}\nOutput:" =
      "Instruct: {prompt}\nOutput:" ∧
    update_settings (some "New: {prompt}") "Instruct: {prompt}\nOutput:" ≠ "" ∧
    update_system_prompt (some "") "old system prompt" = "") :=
  ⟨by decide,
    c10_template_guard_vs_system_prompt "Instruct: {prompt}\nOutput:"
      "old system prompt" (some "New: {prompt}") (by decide)⟩

end UatChat
